import Mathlib

/-!
Shallow embedding of the signal-derivation and position-tracking core of
the reddit-sentiment-trader repository.

Python floats are modelled by `ℚ` (all the constants involved are exact
decimals), Python ints by `ℕ`/`ℤ`, SQL `NULL`-able columns and optional
dict keys by `Option`, and dicts of fixed shape by structures.  Fields
that carry only wall-clock timestamps or formatted prose
(`timestamp`, `reasoning`, the `posts_analyzed_24h` counter) are either
modelled as an explicit `now` parameter or omitted: no claim mentions
them.  Python's `round(x, 2)` (banker's rounding, half to even) is
modelled exactly by `pyRound2`.
-/

/-- One analyzed post, the dict shape produced by `SentimentAnalyzer.analyze_batch`
(src/src/analyzers/sentiment_analyzer.py).  `score` is the Reddit engagement
score (may be negative); `sentiment` is one of the strings `bullish`,
`bearish`, `neutral`. -/
structure AnalyzedPost where
  sentiment : String
  sentiment_score : ℚ
  confidence : ℚ
  score : ℤ
  mentioned_assets : List String
deriving DecidableEq

/-- The dict returned by `SentimentAnalyzer.aggregate_sentiment`.  In the
source the empty-input branch returns a dict WITHOUT the `bullish_pct` and
`bearish_pct` keys, so those two fields are `Option ℚ` (`none` = key absent). -/
structure AggregateSentiment where
  asset : String
  post_count : ℕ
  avg_sentiment_score : ℚ
  bullish_count : ℕ
  bearish_count : ℕ
  neutral_count : ℕ
  bullish_pct : Option ℚ
  bearish_pct : Option ℚ
  avg_confidence : ℚ
  weighted_sentiment : ℚ
deriving DecidableEq

/-- `max(p.get('score', 1), 1)` — the engagement weight of one post. -/
def postWeight (p : AnalyzedPost) : ℤ := max p.score 1

/-- Python's `str.upper()`, character by character (`String.toUpper`
written over the character list so that it evaluates in the kernel). -/
def upperStr (s : String) : String := String.mk (s.data.map Char.toUpper)

/-- The filtering step of `aggregate_sentiment`: Python's `if asset:` is
falsy both for `None` and for the empty string, in which case all posts are
kept; otherwise posts are filtered by case-insensitive ticker membership. -/
def relevantPosts (posts : List AnalyzedPost) (asset : Option String) : List AnalyzedPost :=
  match asset with
  | some a =>
      if a = "" then posts
      else posts.filter (fun p => (p.mentioned_assets.map upperStr).contains (upperStr a))
  | none => posts

/-- Python's `asset or 'ALL'` (empty string is falsy). -/
def assetLabel (asset : Option String) : String :=
  match asset with
  | some a => if a = "" then "ALL" else a
  | none => "ALL"

/-- The dict returned by `aggregate_sentiment` when the filtered list is
empty: all present numeric fields are zero, and the `bullish_pct` /
`bearish_pct` keys are absent. -/
def emptyAggregate (asset : Option String) : AggregateSentiment :=
  { asset := assetLabel asset
    post_count := 0
    avg_sentiment_score := 0
    bullish_count := 0
    bearish_count := 0
    neutral_count := 0
    bullish_pct := none
    bearish_pct := none
    avg_confidence := 0
    weighted_sentiment := 0 }

/-- `SentimentAnalyzer.aggregate_sentiment`
(src/src/analyzers/sentiment_analyzer.py, lines 152-201). -/
def aggregate_sentiment (posts : List AnalyzedPost) (asset : Option String) :
    AggregateSentiment :=
  let relevant := relevantPosts posts asset
  if relevant.isEmpty then emptyAggregate asset
  else
    let total : ℕ := relevant.length
    let bullish : ℕ := relevant.countP (fun p => p.sentiment == "bullish")
    let bearish : ℕ := relevant.countP (fun p => p.sentiment == "bearish")
    let neutral : ℕ := relevant.countP (fun p => p.sentiment == "neutral")
    let avg_ss : ℚ := (relevant.map (fun p => p.sentiment_score)).sum / (total : ℚ)
    let avg_conf : ℚ := (relevant.map (fun p => p.confidence)).sum / (total : ℚ)
    let total_weight : ℤ := (relevant.map postWeight).sum
    let weighted : ℚ :=
      if total_weight > 0 then
        (relevant.map (fun p => p.sentiment_score * (postWeight p : ℚ))).sum / (total_weight : ℚ)
      else 0
    { asset := assetLabel asset
      post_count := total
      avg_sentiment_score := avg_ss
      bullish_count := bullish
      bearish_count := bearish
      neutral_count := neutral
      bullish_pct := some (if total > 0 then (bullish : ℚ) / (total : ℚ) * 100 else 0)
      bearish_pct := some (if total > 0 then (bearish : ℚ) / (total : ℚ) * 100 else 0)
      avg_confidence := avg_conf
      weighted_sentiment := weighted }

/-- Signal type of a generated trading signal. -/
inductive SignalType where
  | BUY : SignalType
  | SELL : SignalType
deriving DecidableEq

/-- The signal dict returned by `SignalGenerator.generate_signal`.  The
`reasoning` string and the wall-clock `timestamp` are omitted (no claim
mentions them). -/
structure Signal where
  asset : String
  signal_type : SignalType
  confidence_score : ℚ
  sentiment_score : ℚ
  post_count : ℕ
  bullish_pct : ℚ
  bearish_pct : ℚ
deriving DecidableEq

/-- The tail of `generate_signal` shared by the four tiers: the final
confidence gate (`if confidence_score < self.min_confidence: return None`)
followed by construction of the signal dict. -/
def finalizeSignal (agg : AggregateSentiment) (ty : SignalType) (conf : ℚ)
    (min_confidence : ℚ) : Option Signal :=
  if conf < min_confidence then none
  else some
    { asset := agg.asset
      signal_type := ty
      confidence_score := conf
      sentiment_score := agg.weighted_sentiment
      post_count := agg.post_count
      bullish_pct := agg.bullish_pct.getD 0
      bearish_pct := agg.bearish_pct.getD 0 }

/-- `SignalGenerator.generate_signal`
(src/src/signals/signal_generator.py, lines 21-92).  `bullish_pct` and
`bearish_pct` are read with `.get(key, 0)`, hence `Option.getD 0`. -/
def generate_signal (min_confidence : ℚ) (min_posts : ℕ)
    (agg : AggregateSentiment) : Option Signal :=
  let bullish_pct : ℚ := agg.bullish_pct.getD 0
  let bearish_pct : ℚ := agg.bearish_pct.getD 0
  if agg.post_count < min_posts then none
  else if agg.avg_confidence < min_confidence then none
  else if agg.weighted_sentiment > 1/2 ∧ bullish_pct > 60 then
    finalizeSignal agg SignalType.BUY
      (min (agg.avg_confidence * (bullish_pct / 100)) 1) min_confidence
  else if agg.weighted_sentiment > 1/4 ∧ bullish_pct > 50 then
    finalizeSignal agg SignalType.BUY
      (min (agg.avg_confidence * (4/5) * (bullish_pct / 100)) 1) min_confidence
  else if agg.weighted_sentiment < -(1/2) ∧ bearish_pct > 60 then
    finalizeSignal agg SignalType.SELL
      (min (agg.avg_confidence * (bearish_pct / 100)) 1) min_confidence
  else if agg.weighted_sentiment < -(1/4) ∧ bearish_pct > 50 then
    finalizeSignal agg SignalType.SELL
      (min (agg.avg_confidence * (4/5) * (bearish_pct / 100)) 1) min_confidence
  else none

/-- Union of `mentioned_assets` across posts, the `all_assets` set of
`generate_signals_from_posts` (modelled as a first-seen-order dedup list;
both call paths of the claim build it identically). -/
def autoDetectAssets (posts : List AnalyzedPost) : List String :=
  posts.foldl
    (fun acc p =>
      p.mentioned_assets.foldl (fun acc2 a => if acc2.contains a then acc2 else acc2 ++ [a]) acc)
    []

/-- `SignalGenerator.generate_signals_from_posts`
(src/src/signals/signal_generator.py, lines 94-126).  Python's
`if not target_assets:` is true both for `None` and for the empty list, and
in either case the asset set is auto-detected from the posts. -/
def generate_signals_from_posts (min_confidence : ℚ) (min_posts : ℕ)
    (analyzed_posts : List AnalyzedPost) (target_assets : Option (List String)) :
    List Signal :=
  let assets : List String :=
    match target_assets with
    | none => autoDetectAssets analyzed_posts
    | some l => if l.isEmpty then autoDetectAssets analyzed_posts else l
  assets.filterMap
    (fun a => generate_signal min_confidence min_posts (aggregate_sentiment analyzed_posts (some a)))

/-- Python's `round(x, 2)`: round half to even at two decimal places,
exact on `ℚ`. -/
def pyRound2 (x : ℚ) : ℚ :=
  let y := x * 100
  let f : ℤ := Int.floor y
  let r := y - (f : ℚ)
  let n : ℤ :=
    if r < 1/2 then f
    else if 1/2 < r then f + 1
    else if f % 2 = 0 then f else f + 1
  (n : ℚ) / 100

/-- `SignalGenerator.calculate_position_size`
(src/src/signals/signal_generator.py, lines 153-175).  Note the source
normalizes `(confidence - 0.6) / 0.4` WITHOUT clamping it to `[0, 1]`. -/
def calculate_position_size (signal : Signal) (account_balance : ℚ)
    (max_position_pct : ℚ) : ℚ :=
  let confidence := signal.confidence_score
  let base_position := account_balance * max_position_pct
  let scaled_confidence := (confidence - 3/5) / (2/5)
  let position_size := base_position * (1/2 + 1/2 * scaled_confidence)
  pyRound2 position_size

/-- One row of the `paper_trades` table (src/src/database/db.py).  The
`exit_price`, `pnl` and `closed_at` columns are `NULL` until close;
`closed_at` timestamps are modelled as `ℕ`. -/
structure PaperTrade where
  id : ℕ
  signal_id : ℕ
  asset : String
  trade_type : String
  entry_price : ℚ
  exit_price : Option ℚ
  position_size : ℚ
  pnl : Option ℚ
  status : String
  closed_at : Option ℕ
deriving DecidableEq

/-- The error taxonomy named by the specification for the position
tracker.  The source never raises either of these; the type exists so
that the spec's failure claims are statable against the embedding. -/
inductive DBError where
  | NotFoundError : DBError
  | AlreadyClosedError : DBError
deriving DecidableEq

/-- `TradingDatabase.close_paper_trade` (src/src/database/db.py, lines
112-138).  The source fetches the row by id; when no row matches it
falls through silently (no exception), and when a row matches — whatever
its `status` — it recomputes the PnL from the new `exit_price` and
overwrites `exit_price`, `pnl`, `status` and `closed_at`.  Every branch
of the source returns without raising, hence every branch here is
`Except.ok`; `now` is `datetime.now()`. -/
def close_paper_trade (store : List PaperTrade) (trade_id : ℕ) (exit_price : ℚ)
    (now : ℕ) : Except DBError (List PaperTrade) :=
  match store.find? (fun t => t.id == trade_id) with
  | none => Except.ok store
  | some t =>
      let pnl : ℚ :=
        if upperStr t.trade_type = "BUY" then
          (exit_price - t.entry_price) / t.entry_price * t.position_size
        else
          (t.entry_price - exit_price) / t.entry_price * t.position_size
      Except.ok (store.map (fun u =>
        if u.id = trade_id then
          { u with exit_price := some exit_price, pnl := some pnl,
                   status := "closed", closed_at := some now }
        else u))

/-- The dict returned by `TradingDatabase.get_performance_stats`.  The
`posts_analyzed_24h` field is omitted (wall-clock query; no claim
mentions it). -/
structure PerformanceStats where
  total_signals : ℕ
  total_trades : ℕ
  open_trades : ℕ
  closed_trades : ℕ
  total_pnl : ℚ
  avg_pnl : ℚ
  winning_trades : ℕ
  win_rate : ℚ
deriving DecidableEq

/-- `TradingDatabase.get_performance_stats` (src/src/database/db.py, lines
193-239).  SQL aggregate semantics over the closed rows: `SUM(pnl)` and
`AVG(pnl)` skip `NULL` values (`COALESCE` turns an all-`NULL` aggregate
into `0`), `COUNT(CASE WHEN pnl > 0 THEN 1 END)` counts non-`NULL`
positives, while `COUNT(*)` counts every closed row. -/
def get_performance_stats (signal_count : ℕ) (trades : List PaperTrade) :
    PerformanceStats :=
  let total_trades := trades.length
  let open_count := (trades.filter (fun t => t.status == "open")).length
  let closed := trades.filter (fun t => t.status == "closed")
  let closed_count := closed.length
  let pnls : List ℚ := closed.filterMap (fun t => t.pnl)
  let total_pnl := pnls.sum
  let avg_pnl : ℚ := if pnls.length > 0 then pnls.sum / (pnls.length : ℚ) else 0
  let winning := (pnls.filter (fun p => decide (p > 0))).length
  let win_rate : ℚ :=
    if closed_count > 0 then (winning : ℚ) / (closed_count : ℚ) * 100 else 0
  { total_signals := signal_count
    total_trades := total_trades
    open_trades := open_count
    closed_trades := closed_count
    total_pnl := total_pnl
    avg_pnl := avg_pnl
    winning_trades := winning
    win_rate := win_rate }

/-- Modelled from the spec (section 4.4): the clamp the specification
prescribes for the position sizer, absent from the source. -/
def spec_clamp (x lo hi : ℚ) : ℚ := max lo (min hi x)

/-- Modelled from the spec (section 4.4): the position size the
specification prescribes, `round(base * (0.5 + 0.5 * clamp((confidence -
0.6) / 0.4, 0.0, 1.0)), 2)`, for comparison with the source's
`calculate_position_size`. -/
def spec_position_size (confidence account_balance max_position_pct : ℚ) : ℚ :=
  pyRound2 (account_balance * max_position_pct *
    (1/2 + 1/2 * spec_clamp ((confidence - 3/5) / (2/5)) 0 1))

/-- Decidable equality for `Except` results, so that claims about the
tracker's return values can be settled by evaluation. -/
instance {ε α : Type} [DecidableEq ε] [DecidableEq α] : DecidableEq (Except ε α) :=
  fun x y =>
    match x, y with
    | Except.error e, Except.error f =>
        if h : e = f then isTrue (by rw [h]) else isFalse (by intro hh; cases hh; exact h rfl)
    | Except.ok a, Except.ok b =>
        if h : a = b then isTrue (by rw [h]) else isFalse (by intro hh; cases hh; exact h rfl)
    | Except.error _, Except.ok _ => isFalse (by intro hh; cases hh)
    | Except.ok _, Except.error _ => isFalse (by intro hh; cases hh)

/-! ### Concrete inputs used by witnesses and counterexamples -/

/-- A paper trade already closed at exit price 110 with booked pnl 100. -/
def closedBuyTrade : PaperTrade :=
  { id := 1, signal_id := 1, asset := "BTC", trade_type := "BUY", entry_price := 100,
    exit_price := some 110, position_size := 1000, pnl := some 100,
    status := "closed", closed_at := some 5 }

/-- A signal whose confidence is 0.2, below the sizer's 0.6 baseline. -/
def lowConfSignal : Signal :=
  { asset := "BTC", signal_type := SignalType.BUY, confidence_score := 1/5,
    sentiment_score := 0, post_count := 0, bullish_pct := 0, bearish_pct := 0 }

/-- A signal whose confidence is 0. -/
def zeroConfSignal : Signal :=
  { asset := "BTC", signal_type := SignalType.BUY, confidence_score := 0,
    sentiment_score := 0, post_count := 0, bullish_pct := 0, bearish_pct := 0 }

/-- An extreme aggregate that still fails the `min_posts` gate: one post,
weighted sentiment 0.9, 100 percent bullish. -/
def gateFailAgg : AggregateSentiment :=
  { asset := "BTC", post_count := 1, avg_sentiment_score := 9/10, bullish_count := 1,
    bearish_count := 0, neutral_count := 0, bullish_pct := some 100, bearish_pct := some 0,
    avg_confidence := 9/10, weighted_sentiment := 9/10 }

/-- An aggregate that passes every gate and fires the strong-bullish tier. -/
def strongBullAgg : AggregateSentiment :=
  { asset := "BTC", post_count := 10, avg_sentiment_score := 4/5, bullish_count := 10,
    bearish_count := 0, neutral_count := 0, bullish_pct := some 100, bearish_pct := some 0,
    avg_confidence := 9/10, weighted_sentiment := 4/5 }

/-- The tier-precedence aggregate of the spec's example: weighted sentiment
0.6, 70 percent bullish, average confidence 0.9. -/
def tierAgg : AggregateSentiment :=
  { asset := "BTC", post_count := 3, avg_sentiment_score := 3/5, bullish_count := 2,
    bearish_count := 0, neutral_count := 1, bullish_pct := some 70, bearish_pct := some 0,
    avg_confidence := 9/10, weighted_sentiment := 3/5 }

/-- One bullish post about SOL, sentiment score 0.8, confidence 0.9,
engagement 100. -/
def solPost : AnalyzedPost :=
  { sentiment := "bullish", sentiment_score := 4/5, confidence := 9/10, score := 100,
    mentioned_assets := ["SOL"] }

/-- Three copies of `solPost`: enough to clear the default gates. -/
def demoPosts : List AnalyzedPost := [solPost, solPost, solPost]

/-! ### C1 — double close -/

/-- Claim C1, failing input: the store holds the already-closed trade
`closedBuyTrade` (pnl 100, exit 110, closed_at 5); a second
`close_paper_trade` at exit price 120 does not fail — it recomputes the
pnl to 200 and overwrites `exit_price`, `pnl` and `closed_at`. -/
theorem double_close_recomputes_pnl :
    close_paper_trade [closedBuyTrade] 1 120 9 =
      Except.ok [{ id := 1, signal_id := 1, asset := "BTC", trade_type := "BUY",
                   entry_price := 100, exit_price := some 120, position_size := 1000,
                   pnl := some 200, status := "closed", closed_at := some 9 }] ∧
    (200 : ℚ) ≠ 100 ∧ (some (120 : ℚ)) ≠ some 110 ∧ (some (9 : ℕ)) ≠ some 5 := by
  refine ⟨?_, by norm_num, ?_, by decide⟩
  · have hfind : List.find? (fun t => t.id == 1) [closedBuyTrade] = some closedBuyTrade := rfl
    have hup : upperStr "BUY" = "BUY" := by decide
    simp [close_paper_trade, hfind, closedBuyTrade, hup]
    norm_num
  · simp only [ne_eq, Option.some.injEq]
    norm_num

/-! ### C3 — close of an unknown position id -/

/-- Claim C3, counterexample: closing a position id absent from the store
does not fail with `NotFoundError` — the source's `if result:` falls
through and the call returns successfully. -/
theorem close_unknown_id_no_error :
    close_paper_trade [] 1 100 0 ≠ Except.error DBError.NotFoundError ∧
    close_paper_trade [] 1 100 0 = Except.ok [] := by
  decide

/-- Claim C3 (amended): for every position id with no matching trade in
the store, `close_paper_trade` is a silent no-op — it surfaces no error
and returns the store unchanged. -/
theorem close_unknown_id_silent_noop (store : List PaperTrade) (trade_id : ℕ)
    (exit_price : ℚ) (now : ℕ)
    (h : store.find? (fun t => t.id == trade_id) = none) :
    close_paper_trade store trade_id exit_price now = Except.ok store := by
  unfold close_paper_trade
  rw [h]

/-- Witness for the amended C3 at the empty store and id 1. -/
theorem close_unknown_id_silent_noop_witness :
    close_paper_trade [] 1 100 0 = Except.ok [] :=
  close_unknown_id_silent_noop [] 1 100 0 rfl

/-! ### C6 — PnL sign convention on close -/

/-- Claim C6: closing an open BUY trade books
`pnl = (exit - entry) / entry * size`, and closing an open SELL trade books
`pnl = (entry - exit) / entry * size` (the source's `else` branch). -/
theorem close_pnl_sign_convention (i sid : ℕ) (asset : String) (e x s : ℚ)
    (now : ℕ) (he : e ≠ 0) :
    close_paper_trade
        [{ id := i, signal_id := sid, asset := asset, trade_type := "BUY", entry_price := e,
           exit_price := none, position_size := s, pnl := none, status := "open",
           closed_at := none }] i x now =
      Except.ok
        [{ id := i, signal_id := sid, asset := asset, trade_type := "BUY", entry_price := e,
           exit_price := some x, position_size := s, pnl := some ((x - e) / e * s),
           status := "closed", closed_at := some now }] ∧
    close_paper_trade
        [{ id := i, signal_id := sid, asset := asset, trade_type := "SELL", entry_price := e,
           exit_price := none, position_size := s, pnl := none, status := "open",
           closed_at := none }] i x now =
      Except.ok
        [{ id := i, signal_id := sid, asset := asset, trade_type := "SELL", entry_price := e,
           exit_price := some x, position_size := s, pnl := some ((e - x) / e * s),
           status := "closed", closed_at := some now }] := by
  constructor <;>
    simp [close_paper_trade, List.find?,
      show upperStr "BUY" = "BUY" from by decide,
      show upperStr "SELL" = "SELL" from by decide,
      show ¬("SELL" : String) = "BUY" from by decide]

/-- Witness for C6 at the spec's example: entry 100, exit 110, size 1000
gives pnl 100 for BUY and -100 for SELL. -/
theorem close_pnl_sign_convention_witness :
    close_paper_trade
        [{ id := 1, signal_id := 1, asset := "BTC", trade_type := "BUY", entry_price := 100,
           exit_price := none, position_size := 1000, pnl := none, status := "open",
           closed_at := none }] 1 110 7 =
      Except.ok
        [{ id := 1, signal_id := 1, asset := "BTC", trade_type := "BUY", entry_price := 100,
           exit_price := some 110, position_size := 1000, pnl := some 100,
           status := "closed", closed_at := some 7 }] ∧
    close_paper_trade
        [{ id := 1, signal_id := 1, asset := "BTC", trade_type := "SELL", entry_price := 100,
           exit_price := none, position_size := 1000, pnl := none, status := "open",
           closed_at := none }] 1 110 7 =
      Except.ok
        [{ id := 1, signal_id := 1, asset := "BTC", trade_type := "SELL", entry_price := 100,
           exit_price := some 110, position_size := 1000, pnl := some (-100),
           status := "closed", closed_at := some 7 }] := by
  have h := close_pnl_sign_convention 1 1 "BTC" 100 110 1000 7 (by norm_num)
  refine ⟨h.1.trans ?_, h.2.trans ?_⟩ <;> norm_num

/-! ### C9 — win rate -/

/-- Claim C9: in every position-store state `win_rate` equals
`winning_trades / closed_trades * 100` (with the division-by-zero-free
convention that it is exactly 0 when there are no closed trades), and
`closed_trades = 0` forces `win_rate = 0`. -/
theorem stats_win_rate_formula (signal_count : ℕ) (trades : List PaperTrade) :
    (get_performance_stats signal_count trades).win_rate =
      ((get_performance_stats signal_count trades).winning_trades : ℚ) /
        ((get_performance_stats signal_count trades).closed_trades : ℚ) * 100 ∧
    ((get_performance_stats signal_count trades).closed_trades = 0 →
      (get_performance_stats signal_count trades).win_rate = 0) := by
  constructor
  · simp only [get_performance_stats]
    split
    · rfl
    · rename_i hc
      have h0 := Nat.le_zero.mp (Nat.not_lt.mp hc)
      simp [h0]
  · intro h
    simp only [get_performance_stats] at h ⊢
    simp [h]

/-- Witness for C9 at the empty store. -/
theorem stats_win_rate_formula_witness :
    (get_performance_stats 0 []).win_rate = 0 :=
  (stats_win_rate_formula 0 []).2 rfl

/-! ### C2 — position sizing is not clamped -/

/-- Claim C2, counterexample: at confidence 0.2 (below the 0.6 baseline)
the source returns 0 while the spec's clamped formula returns 500 (half
the base allocation), and at confidence 0 the source returns -250, a
negative position size. -/
theorem position_size_not_clamped :
    calculate_position_size lowConfSignal 10000 (1/10) = 0 ∧
    spec_position_size (1/5) 10000 (1/10) = 500 ∧
    calculate_position_size lowConfSignal 10000 (1/10) ≠
      spec_position_size (1/5) 10000 (1/10) ∧
    calculate_position_size zeroConfSignal 10000 (1/10) = -250 := by
  refine ⟨?_, ?_, ?_, ?_⟩ <;>
    norm_num [calculate_position_size, pyRound2, spec_position_size, spec_clamp,
      lowConfSignal, zeroConfSignal]

/-- Claim C2 (amended): the source computes
`round(base * (0.5 + 0.5 * (confidence - 0.6) / 0.4), 2)` with NO clamp,
so for confidence below 0.6 the (pre-rounding) position is strictly below
half the base allocation — and can be negative. -/
theorem position_size_unclamped_formula (sig : Signal) (balance pct : ℚ) :
    calculate_position_size sig balance pct =
      pyRound2 (balance * pct * (1/2 + 1/2 * ((sig.confidence_score - 3/5) / (2/5)))) ∧
    (sig.confidence_score < 3/5 → 0 < balance * pct →
      balance * pct * (1/2 + 1/2 * ((sig.confidence_score - 3/5) / (2/5))) <
        balance * pct * (1/2)) := by
  refine ⟨rfl, ?_⟩
  intro hc hb
  have hs : (sig.confidence_score - 3/5) / (2/5) < 0 :=
    div_neg_of_neg_of_pos (by linarith) (by norm_num)
  have h2 : balance * pct * ((sig.confidence_score - 3/5) / (2/5)) < 0 :=
    mul_neg_of_pos_of_neg hb hs
  nlinarith [h2]

/-- Witness for the amended C2 at confidence 0.2, balance 10000, cap 0.1. -/
theorem position_size_unclamped_formula_witness :
    calculate_position_size lowConfSignal 10000 (1/10) =
      pyRound2 (10000 * (1/10) *
        (1/2 + 1/2 * ((lowConfSignal.confidence_score - 3/5) / (2/5)))) ∧
    10000 * (1/10) * (1/2 + 1/2 * ((lowConfSignal.confidence_score - 3/5) / (2/5))) <
      10000 * (1/10) * (1/2 : ℚ) := by
  have h := position_size_unclamped_formula lowConfSignal 10000 (1/10)
  exact ⟨h.1, h.2 (by norm_num [lowConfSignal]) (by norm_num)⟩

/-! ### C4 — empty aggregate -/

/-- Claim C4, counterexample: on an empty record set the aggregate's
`bullish_pct` and `bearish_pct` keys are ABSENT (`none`), not present
with value 0. -/
theorem empty_aggregate_pct_keys_absent :
    (aggregate_sentiment [] none).bullish_pct = none ∧
    (aggregate_sentiment [] none).bullish_pct ≠ some 0 ∧
    (aggregate_sentiment [] none).bearish_pct = none ∧
    (aggregate_sentiment [] none).post_count = 0 := by
  refine ⟨rfl, ?_, rfl, rfl⟩
  intro h
  simp [aggregate_sentiment, relevantPosts, emptyAggregate] at h

/-- Claim C4 (amended): whenever the filtered record set is empty, every
field PRESENT in the returned aggregate is zero (`post_count`, the three
counts, `avg_sentiment_score`, `avg_confidence`, `weighted_sentiment`),
while the `bullish_pct` and `bearish_pct` keys are absent; the classifier
later reads them with a `.get(key, 0)` default. -/
theorem empty_filtered_aggregate (posts : List AnalyzedPost) (asset : Option String)
    (h : relevantPosts posts asset = []) :
    aggregate_sentiment posts asset =
      { asset := assetLabel asset, post_count := 0, avg_sentiment_score := 0,
        bullish_count := 0, bearish_count := 0, neutral_count := 0,
        bullish_pct := none, bearish_pct := none, avg_confidence := 0,
        weighted_sentiment := 0 } := by
  simp [aggregate_sentiment, h, emptyAggregate]

/-- Witness for the amended C4 at the empty record list. -/
theorem empty_filtered_aggregate_witness :
    aggregate_sentiment [] none =
      { asset := "ALL", post_count := 0, avg_sentiment_score := 0,
        bullish_count := 0, bearish_count := 0, neutral_count := 0,
        bullish_pct := none, bearish_pct := none, avg_confidence := 0,
        weighted_sentiment := 0 } :=
  empty_filtered_aggregate [] none rfl

/-! ### C5 — classifier gates -/

/-- A signal can only come out of `finalizeSignal` with a confidence at or
above the floor. -/
theorem finalizeSignal_some_imp {agg : AggregateSentiment} {ty : SignalType}
    {conf mc : ℚ} {sig : Signal} (h : finalizeSignal agg ty conf mc = some sig) :
    mc ≤ sig.confidence_score := by
  unfold finalizeSignal at h
  split_ifs at h with hlt
  exact le_of_le_of_eq (not_lt.mp hlt)
    (congrArg Signal.confidence_score (Option.some.inj h))

/-- Claim C5: the classifier returns no signal whenever `post_count` is
below `min_posts` or `avg_confidence` is below `min_confidence`, and any
signal it does return carries a confidence at or above `min_confidence`
(the tier confidence is re-checked against the floor). -/
theorem classifier_gates (mc : ℚ) (mp : ℕ) (agg : AggregateSentiment) :
    ((agg.post_count < mp ∨ agg.avg_confidence < mc) →
      generate_signal mc mp agg = none) ∧
    (∀ sig, generate_signal mc mp agg = some sig → mc ≤ sig.confidence_score) := by
  constructor
  · intro h
    rcases h with h | h
    · simp [generate_signal, h]
    · by_cases h1 : agg.post_count < mp
      · simp [generate_signal, h1]
      · simp [generate_signal, h1, h]
  · intro sig h
    simp only [generate_signal] at h
    split_ifs at h <;>
      first
        | cases h
        | exact finalizeSignal_some_imp h

/-- Witness for C5: an extreme one-post aggregate yields no signal under
`min_posts = 3`, and a passing aggregate's signal confidence (0.9) is at
or above the floor (0.6). -/
theorem classifier_gates_witness :
    generate_signal (3/5) 3 gateFailAgg = none ∧ (3/5 : ℚ) ≤ 9/10 := by
  constructor
  · exact (classifier_gates (3/5) 3 gateFailAgg).1 (Or.inl (by norm_num [gateFailAgg]))
  · exact (classifier_gates (3/5) 3 strongBullAgg).2
      { asset := "BTC", signal_type := SignalType.BUY, confidence_score := 9/10,
        sentiment_score := 4/5, post_count := 10, bullish_pct := 100, bearish_pct := 0 }
      (by norm_num [generate_signal, finalizeSignal, strongBullAgg, min_def])

/-! ### C7 — strong bullish tier -/

/-- Claim C7: every aggregate that passes the post-count gate, the
average-confidence gate, the strong-bullish tier condition
(`weighted_sentiment > 0.5` and `bullish_pct > 60`) and the final
confidence floor produces a BUY signal whose confidence is
`min(avg_confidence * bullish_pct / 100, 1.0)`; the tier is checked
before the moderate one, so it takes precedence. -/
theorem strong_bullish_tier (mc : ℚ) (mp : ℕ) (agg : AggregateSentiment)
    (hposts : mp ≤ agg.post_count) (hconf : mc ≤ agg.avg_confidence)
    (hws : agg.weighted_sentiment > 1/2) (hbp : agg.bullish_pct.getD 0 > 60)
    (hfloor : mc ≤ min (agg.avg_confidence * (agg.bullish_pct.getD 0 / 100)) 1) :
    generate_signal mc mp agg =
      some { asset := agg.asset, signal_type := SignalType.BUY,
             confidence_score := min (agg.avg_confidence * (agg.bullish_pct.getD 0 / 100)) 1,
             sentiment_score := agg.weighted_sentiment, post_count := agg.post_count,
             bullish_pct := agg.bullish_pct.getD 0,
             bearish_pct := agg.bearish_pct.getD 0 } := by
  simp only [generate_signal, finalizeSignal]
  rw [if_neg (by omega), if_neg (not_lt.mpr hconf), if_pos ⟨hws, hbp⟩,
    if_neg (not_lt.mpr hfloor)]

/-- Witness for C7 at the spec's example: weighted sentiment 0.6, 70
percent bullish, average confidence 0.9 gives a BUY at confidence 0.63. -/
theorem strong_bullish_tier_witness :
    generate_signal (3/5) 3 tierAgg =
      some { asset := "BTC", signal_type := SignalType.BUY, confidence_score := 63/100,
             sentiment_score := 3/5, post_count := 3, bullish_pct := 70,
             bearish_pct := 0 } := by
  have h := strong_bullish_tier (3/5) 3 tierAgg (by norm_num [tierAgg])
    (by norm_num [tierAgg]) (by norm_num [tierAgg]) (by norm_num [tierAgg])
    (by norm_num [tierAgg, min_def])
  rw [h]
  norm_num [tierAgg, min_def]

/-! ### C10 — empty target-asset list means auto-detect -/

/-- Claim C10: calling the batch generator with an empty `target_assets`
list is identical to calling it with `target_assets` absent (Python's
`if not target_assets:` treats both as auto-detect), and on a concrete
bullish batch both return a non-empty signal list. -/
theorem empty_target_assets_auto_detect :
    (∀ (mc : ℚ) (mp : ℕ) (posts : List AnalyzedPost),
      generate_signals_from_posts mc mp posts (some []) =
        generate_signals_from_posts mc mp posts none) ∧
    generate_signals_from_posts (3/5) 3 demoPosts (some []) ≠ [] := by
  constructor
  · intro mc mp posts
    rfl
  · have h1 : autoDetectAssets demoPosts = ["SOL"] := rfl
    have h2 : relevantPosts demoPosts (some "SOL") = demoPosts := rfl
    have hagg : aggregate_sentiment demoPosts (some "SOL") =
        { asset := "SOL", post_count := 3, avg_sentiment_score := 4/5,
          bullish_count := 3, bearish_count := 0, neutral_count := 0,
          bullish_pct := some 100, bearish_pct := some 0, avg_confidence := 9/10,
          weighted_sentiment := 4/5 } := by
      simp only [aggregate_sentiment, h2]
      norm_num [demoPosts, solPost, postWeight]
      exact ⟨by decide, by decide, by decide, by decide⟩
    have h3 : generate_signal (3/5) 3 (aggregate_sentiment demoPosts (some "SOL")) =
        some { asset := "SOL", signal_type := SignalType.BUY, confidence_score := 9/10,
               sentiment_score := 4/5, post_count := 3, bullish_pct := 100,
               bearish_pct := 0 } := by
      rw [hagg]
      norm_num [generate_signal, finalizeSignal, min_def]
    simp [generate_signals_from_posts, h1, h3]

/-! ### C8 — bullish/bearish mirror symmetry -/

/-- Claim C8's label transform: swap `bullish` and `bearish`, leave any
other label (in particular `neutral`) unchanged. -/
def mirrorLabel (s : String) : String :=
  if s = "bullish" then "bearish" else if s = "bearish" then "bullish" else s

/-- Claim C8's record transform: swap the bullish/bearish label and negate
the sentiment score; engagement, confidence and mentioned assets are
untouched. -/
def mirrorPost (p : AnalyzedPost) : AnalyzedPost :=
  { p with sentiment := mirrorLabel p.sentiment, sentiment_score := -p.sentiment_score }

/-- The induced transform on aggregates: swap the bullish and bearish
counts and percentages and negate both sentiment averages. -/
def mirrorAgg (a : AggregateSentiment) : AggregateSentiment :=
  { asset := a.asset, post_count := a.post_count,
    avg_sentiment_score := -a.avg_sentiment_score,
    bullish_count := a.bearish_count, bearish_count := a.bullish_count,
    neutral_count := a.neutral_count,
    bullish_pct := a.bearish_pct, bearish_pct := a.bullish_pct,
    avg_confidence := a.avg_confidence,
    weighted_sentiment := -a.weighted_sentiment }

/-- BUY and SELL exchanged. -/
def flipType : SignalType → SignalType
  | SignalType.BUY => SignalType.SELL
  | SignalType.SELL => SignalType.BUY

/-- The induced transform on signals: flip the type, negate the sentiment,
swap the percentages; confidence, post count and asset are unchanged. -/
def mirrorSignal (s : Signal) : Signal :=
  { asset := s.asset, signal_type := flipType s.signal_type,
    confidence_score := s.confidence_score, sentiment_score := -s.sentiment_score,
    post_count := s.post_count, bullish_pct := s.bearish_pct,
    bearish_pct := s.bullish_pct }

theorem filter_map_mirror (l : List AnalyzedPost) (q : AnalyzedPost → Bool)
    (hq : ∀ x, q (mirrorPost x) = q x) :
    (l.map mirrorPost).filter q = (l.filter q).map mirrorPost := by
  induction l with
  | nil => rfl
  | cons p ps ih =>
    simp only [List.map_cons, List.filter_cons, hq]
    cases hpq : q p <;> simp [hpq, ih]

theorem relevantPosts_map_mirror (posts : List AnalyzedPost) (asset : Option String) :
    relevantPosts (posts.map mirrorPost) asset =
      (relevantPosts posts asset).map mirrorPost := by
  cases asset with
  | none => rfl
  | some a =>
    by_cases ha : a = ""
    · simp [relevantPosts, ha]
    · simp only [relevantPosts, ha, if_neg]
      exact filter_map_mirror posts _ (fun x => rfl)

theorem countP_mirror (l : List AnalyzedPost) (s t : String)
    (hst : ∀ x : String, (mirrorLabel x == s) = (x == t)) :
    (l.map mirrorPost).countP (fun p => p.sentiment == s) =
      l.countP (fun p => p.sentiment == t) := by
  induction l with
  | nil => rfl
  | cons p ps ih =>
    simp only [List.map_cons, List.countP_cons, ih]
    have h := hst p.sentiment
    simp only [mirrorPost]
    simp only [h]

theorem mirrorLabel_bullish (x : String) :
    (mirrorLabel x == "bullish") = (x == "bearish") := by
  unfold mirrorLabel
  by_cases h1 : x = "bullish"
  · subst h1; decide
  · by_cases h2 : x = "bearish"
    · subst h2; decide
    · rw [if_neg h1, if_neg h2]
      rw [beq_eq_false_iff_ne.mpr h1, beq_eq_false_iff_ne.mpr h2]

theorem mirrorLabel_bearish (x : String) :
    (mirrorLabel x == "bearish") = (x == "bullish") := by
  unfold mirrorLabel
  by_cases h1 : x = "bullish"
  · subst h1; decide
  · by_cases h2 : x = "bearish"
    · subst h2; decide
    · rw [if_neg h1, if_neg h2]
      rw [beq_eq_false_iff_ne.mpr h1, beq_eq_false_iff_ne.mpr h2]

theorem mirrorLabel_neutral (x : String) :
    (mirrorLabel x == "neutral") = (x == "neutral") := by
  unfold mirrorLabel
  by_cases h1 : x = "bullish"
  · subst h1; decide
  · by_cases h2 : x = "bearish"
    · subst h2; decide
    · rw [if_neg h1, if_neg h2]

theorem map_mirror_sentiment_sum (l : List AnalyzedPost) :
    ((l.map mirrorPost).map (fun p => p.sentiment_score)).sum =
      -((l.map (fun p => p.sentiment_score)).sum) := by
  induction l with
  | nil => simp
  | cons p ps ih =>
    simp only [List.map_cons, List.sum_cons, ih, mirrorPost]
    ring

theorem map_mirror_confidence (l : List AnalyzedPost) :
    (l.map mirrorPost).map (fun p => p.confidence) =
      l.map (fun p => p.confidence) := by
  induction l with
  | nil => rfl
  | cons p ps ih => simp [ih, mirrorPost]

theorem map_mirror_weight (l : List AnalyzedPost) :
    (l.map mirrorPost).map postWeight = l.map postWeight := by
  induction l with
  | nil => rfl
  | cons p ps ih => simp [ih, mirrorPost, postWeight]

theorem map_mirror_weighted_sum (l : List AnalyzedPost) :
    ((l.map mirrorPost).map (fun p => p.sentiment_score * (postWeight p : ℚ))).sum =
      -((l.map (fun p => p.sentiment_score * (postWeight p : ℚ))).sum) := by
  induction l with
  | nil => simp
  | cons p ps ih =>
    have h1 : (mirrorPost p).sentiment_score = -p.sentiment_score := rfl
    have h2 : postWeight (mirrorPost p) = postWeight p := rfl
    simp only [List.map_cons, List.sum_cons, ih, h1, h2]
    ring

/-- Mirroring every record commutes with aggregation: the aggregate of the
mirrored records is the mirrored aggregate. -/
theorem aggregate_mirror (posts : List AnalyzedPost) (asset : Option String) :
    aggregate_sentiment (posts.map mirrorPost) asset =
      mirrorAgg (aggregate_sentiment posts asset) := by
  simp only [aggregate_sentiment, relevantPosts_map_mirror]
  generalize relevantPosts posts asset = l
  cases l with
  | nil => simp [emptyAggregate, mirrorAgg]
  | cons p ps =>
    simp only [show (List.map mirrorPost (p :: ps)).isEmpty = false from rfl,
      show (p :: ps : List AnalyzedPost).isEmpty = false from rfl,
      Bool.false_eq_true, if_false, mirrorAgg]
    have hlen : ((p :: ps).map mirrorPost).length = (p :: ps).length := by simp
    have hbull := countP_mirror (p :: ps) "bullish" "bearish" mirrorLabel_bullish
    have hbear := countP_mirror (p :: ps) "bearish" "bullish" mirrorLabel_bearish
    have hneut := countP_mirror (p :: ps) "neutral" "neutral" mirrorLabel_neutral
    have hss := map_mirror_sentiment_sum (p :: ps)
    have hcf := map_mirror_confidence (p :: ps)
    have hw := map_mirror_weight (p :: ps)
    have hws := map_mirror_weighted_sum (p :: ps)
    rw [AggregateSentiment.mk.injEq]
    refine ⟨rfl, hlen, ?_, hbull, hbear, hneut, ?_, ?_, ?_, ?_⟩
    · rw [hss, hlen, neg_div]
    · rw [hbull, hlen]
    · rw [hbear, hlen]
    · rw [hcf, hlen]
    · rw [hw, hws]
      split
      · rw [neg_div]
      · rw [neg_zero]

/-- The classifier on a mirrored aggregate returns exactly the mirrored
signal: the gates coincide, the bearish tiers fire exactly when the
bullish tiers fired on the original (and vice versa), and the tier
confidences coincide. -/
theorem generate_signal_mirrorAgg (mc : ℚ) (mp : ℕ) (a : AggregateSentiment) :
    generate_signal mc mp (mirrorAgg a) =
      Option.map mirrorSignal (generate_signal mc mp a) := by
  simp only [generate_signal, finalizeSignal, mirrorAgg]
  have c1m : ((-a.weighted_sentiment > 1/2) ∧ a.bearish_pct.getD 0 > 60) ↔
      ((a.weighted_sentiment < -(1/2)) ∧ a.bearish_pct.getD 0 > 60) := by
    constructor <;> (rintro ⟨hx, hy⟩; exact ⟨by linarith, hy⟩)
  have c2m : ((-a.weighted_sentiment > 1/4) ∧ a.bearish_pct.getD 0 > 50) ↔
      ((a.weighted_sentiment < -(1/4)) ∧ a.bearish_pct.getD 0 > 50) := by
    constructor <;> (rintro ⟨hx, hy⟩; exact ⟨by linarith, hy⟩)
  have c3m : ((-a.weighted_sentiment < -(1/2)) ∧ a.bullish_pct.getD 0 > 60) ↔
      ((a.weighted_sentiment > 1/2) ∧ a.bullish_pct.getD 0 > 60) := by
    constructor <;> (rintro ⟨hx, hy⟩; exact ⟨by linarith, hy⟩)
  have c4m : ((-a.weighted_sentiment < -(1/4)) ∧ a.bullish_pct.getD 0 > 50) ↔
      ((a.weighted_sentiment > 1/4) ∧ a.bullish_pct.getD 0 > 50) := by
    constructor <;> (rintro ⟨hx, hy⟩; exact ⟨by linarith, hy⟩)
  rw [if_congr c1m rfl rfl]
  rw [if_congr (iff_of_eq rfl) rfl (if_congr c2m rfl (if_congr c3m rfl (if_congr c4m rfl rfl)))]
  by_cases h1 : a.weighted_sentiment > 1/2 ∧ a.bullish_pct.getD 0 > 60 <;>
    by_cases h2 : a.weighted_sentiment > 1/4 ∧ a.bullish_pct.getD 0 > 50 <;>
      by_cases h3 : a.weighted_sentiment < -(1/2) ∧ a.bearish_pct.getD 0 > 60 <;>
        by_cases h4 : a.weighted_sentiment < -(1/4) ∧ a.bearish_pct.getD 0 > 50 <;>
          first
            | (exfalso
               first
                 | linarith [h1.1, h3.1]
                 | linarith [h1.1, h4.1]
                 | linarith [h2.1, h3.1]
                 | linarith [h2.1, h4.1])
            | simp only [h1, h2, h3, h4, gt_iff_lt, and_true, true_and, and_self,
                and_false, false_and, if_true, if_false, ite_true, ite_false,
                apply_ite (Option.map mirrorSignal), Option.map_some', Option.map_none',
                mirrorSignal, flipType]

/-- The signal the pipeline produces on `demoPosts` for SOL. -/
def demoSignal : Signal :=
  { asset := "SOL", signal_type := SignalType.BUY, confidence_score := 9/10,
    sentiment_score := 4/5, post_count := 3, bullish_pct := 100, bearish_pct := 0 }

theorem demoAgg_eval :
    aggregate_sentiment demoPosts (some "SOL") =
      { asset := "SOL", post_count := 3, avg_sentiment_score := 4/5,
        bullish_count := 3, bearish_count := 0, neutral_count := 0,
        bullish_pct := some 100, bearish_pct := some 0, avg_confidence := 9/10,
        weighted_sentiment := 4/5 } := by
  have h2 : relevantPosts demoPosts (some "SOL") = demoPosts := rfl
  simp only [aggregate_sentiment, h2]
  norm_num [demoPosts, solPost, postWeight]
  exact ⟨by decide, by decide, by decide, by decide⟩

theorem demoSignal_eval :
    generate_signal (3/5) 3 (aggregate_sentiment demoPosts (some "SOL")) =
      some demoSignal := by
  rw [demoAgg_eval]
  norm_num [generate_signal, finalizeSignal, min_def, demoSignal]

/-- Claim C8: over any record set (and any asset filter, confidence floor
and post-count floor), swapping every bullish label to bearish and vice
versa while negating each record's sentiment score produces a SELL signal
exactly when the original produced a BUY signal, and the two signals carry
identical `confidence_score` and `post_count`. -/
theorem mirror_symmetry_buy_sell (posts : List AnalyzedPost) (asset : Option String)
    (mc : ℚ) (mp : ℕ) :
    ((∃ g, generate_signal mc mp (aggregate_sentiment posts asset) = some g ∧
        g.signal_type = SignalType.BUY) ↔
      (∃ g', generate_signal mc mp
          (aggregate_sentiment (posts.map mirrorPost) asset) = some g' ∧
        g'.signal_type = SignalType.SELL)) ∧
    (∀ g g', generate_signal mc mp (aggregate_sentiment posts asset) = some g →
      generate_signal mc mp (aggregate_sentiment (posts.map mirrorPost) asset) = some g' →
      g'.confidence_score = g.confidence_score ∧ g'.post_count = g.post_count) := by
  have key : generate_signal mc mp (aggregate_sentiment (posts.map mirrorPost) asset) =
      Option.map mirrorSignal (generate_signal mc mp (aggregate_sentiment posts asset)) := by
    rw [aggregate_mirror]
    exact generate_signal_mirrorAgg mc mp _
  constructor
  · constructor
    · rintro ⟨g, hg, hty⟩
      refine ⟨mirrorSignal g, ?_, ?_⟩
      · rw [key, hg]
        rfl
      · simp [mirrorSignal, flipType, hty]
    · rintro ⟨g', hg', hty⟩
      rw [key] at hg'
      cases hgen : generate_signal mc mp (aggregate_sentiment posts asset) with
      | none => rw [hgen] at hg'; cases hg'
      | some g =>
        rw [hgen] at hg'
        have hmg : mirrorSignal g = g' := Option.some.inj hg'
        refine ⟨g, rfl, ?_⟩
        cases hty2 : g.signal_type with
        | BUY => rfl
        | SELL =>
          exfalso
          rw [← hmg] at hty
          simp [mirrorSignal, flipType, hty2] at hty
  · intro g g' hg hg'
    rw [key, hg] at hg'
    have hmg : mirrorSignal g = g' := Option.some.inj hg'
    rw [← hmg]
    exact ⟨rfl, rfl⟩

/-- Witness for C8: the all-bullish SOL batch yields a BUY, so its mirror
yields a SELL. -/
theorem mirror_symmetry_buy_sell_witness :
    ∃ g', generate_signal (3/5) 3
        (aggregate_sentiment (demoPosts.map mirrorPost) (some "SOL")) = some g' ∧
      g'.signal_type = SignalType.SELL :=
  (mirror_symmetry_buy_sell demoPosts (some "SOL") (3/5) 3).1.mp
    ⟨demoSignal, demoSignal_eval, rfl⟩
